import Mathlib

/-!
Shallow embedding of the DEX header decoder of `src/src/lib.rs` (crate `dalvik`).

Byte streams are modelled as `List Nat`; every read masks each byte with
`% 256`, mirroring the fact that the Rust reader delivers `u8` values.
`usize`/`u32` arithmetic is modelled on `Nat` (all values involved are
`u32`-sized, so no `usize` overflow can occur on the 64-bit target the
crate assumes); `u8` arithmetic wraps, which is made explicit with `% 256`.
Fallible operations return `Except Error _`; the entry points that can hit
`unimplemented!()` return `Outcome _`, which has an explicit `panic` value.
-/

namespace Dalvik

/-- Modelled from the spec: the error taxonomy of spec section 7. The `error`
module of the crate is not under `src/`, only its uses in `src/src/lib.rs` are
visible. Constructors mirror those uses: `mismatchedOffsets` is the
`Error::mismatched_offsets(field, observed, expected)` helper,
`mismatchedOffsetsMsg` is the direct `Error::MismatchedOffsets(String)`
construction (its formatted numeric payload is elided), `header` is the
generic `Error::Header(message)` (formatted numeric payload elided), and
`ioError` wraps the short-read I/O failure kind. -/
inductive Error where
  | ioError : Error
  | invalidMagic (magic : List Nat) : Error
  | invalidEndianTag (tag : Nat) : Error
  | invalidHeaderSize (size : Nat) : Error
  | invalidFileSize (observed : Nat) (expected : Option Nat) : Error
  | mismatchedOffsets (field : String) (observed expected : Nat) : Error
  | mismatchedOffsetsMsg (msg : String) : Error
  | header (msg : String) : Error
deriving DecidableEq, Repr

/-- Byte order selector: `LittleEndian` / `BigEndian` of the `byteorder` crate. -/
inductive ByteOrder where
  | le : ByteOrder
  | be : ByteOrder
deriving DecidableEq, Repr

/-- `ENDIAN_CONSTANT` of `src/src/lib.rs` line 201. -/
def ENDIAN_CONSTANT : Nat := 0x12345678

/-- `REVERSE_ENDIAN_CONSTANT` of `src/src/lib.rs` line 202. -/
def REVERSE_ENDIAN_CONSTANT : Nat := 0x78563412

/-- `HEADER_SIZE` of `src/src/lib.rs` line 203. -/
def HEADER_SIZE : Nat := 0x70

/-- `Read::read_exact` into an `n`-byte buffer: consumes exactly `n` bytes,
failing if fewer remain. Each consumed value is masked to a byte. -/
def readExact (n : Nat) (s : List Nat) : Option (List Nat × List Nat) :=
  if n ≤ s.length then some ((s.take n).map (fun b => b % 256), s.drop n) else none

/-- `read_u32::<LittleEndian>` / `read_u32::<BigEndian>`: consumes 4 bytes and
combines them according to the byte order. -/
def readU32 (bo : ByteOrder) (s : List Nat) : Option (Nat × List Nat) :=
  match s with
  | b0 :: b1 :: b2 :: b3 :: rest =>
    match bo with
    | .le => some (b0 % 256 + b1 % 256 * 256 + b2 % 256 * 65536 + b3 % 256 * 16777216, rest)
    | .be => some (b3 % 256 + b2 % 256 * 256 + b1 % 256 * 65536 + b0 % 256 * 16777216, rest)
  | _ => none

/-- `read_u16::<LittleEndian>` / `read_u16::<BigEndian>`: consumes 2 bytes. -/
def readU16 (bo : ByteOrder) (s : List Nat) : Option (Nat × List Nat) :=
  match s with
  | b0 :: b1 :: rest =>
    match bo with
    | .le => some (b0 % 256 + b1 % 256 * 256, rest)
    | .be => some (b1 % 256 + b0 % 256 * 256, rest)
  | _ => none

/-- `u32::swap_bytes` on a value below `2 ^ 32`. -/
def swap32 (v : Nat) : Nat :=
  v % 256 * 16777216 + v / 256 % 256 * 65536 + v / 65536 % 256 * 256 + v / 16777216 % 256

/-- The 32-bit integer formed from the four raw bytes of `s` at positions
`i, i+1, i+2, i+3` under byte order `bo` (missing positions read as 0). -/
def rawU32 (bo : ByteOrder) (s : List Nat) (i : Nat) : Nat :=
  match bo with
  | .le => s.getD i 0 % 256 + s.getD (i + 1) 0 % 256 * 256 +
      s.getD (i + 2) 0 % 256 * 65536 + s.getD (i + 3) 0 % 256 * 16777216
  | .be => s.getD (i + 3) 0 % 256 + s.getD (i + 2) 0 % 256 * 256 +
      s.getD (i + 1) 0 % 256 * 65536 + s.getD i 0 % 256 * 16777216

/-- The `Header` struct of `src/src/lib.rs` lines 208-232. `Option` fields
mirror the Rust `Option<usize>` fields. -/
structure Header where
  magic : List Nat
  checksum : Nat
  signature : List Nat
  file_size : Nat
  header_size : Nat
  endian_tag : Nat
  link_size : Option Nat
  link_offset : Option Nat
  map_offset : Nat
  string_ids_size : Nat
  string_ids_offset : Option Nat
  type_ids_size : Nat
  type_ids_offset : Option Nat
  prototype_ids_size : Nat
  prototype_ids_offset : Option Nat
  field_ids_size : Nat
  field_ids_offset : Option Nat
  method_ids_size : Nat
  method_ids_offset : Option Nat
  class_defs_size : Nat
  class_defs_offset : Option Nat
  data_size : Nat
  data_offset : Nat
deriving DecidableEq, Repr

/-- `Header::is_magic_valid` (`src/src/lib.rs` lines 651-655). -/
def Header.is_magic_valid (magic : List Nat) : Bool :=
  decide (magic.take 4 = [0x64, 0x65, 0x78, 0x0a]) && decide (magic.getD 7 0 = 0x00) &&
  decide (0x30 ≤ magic.getD 4 0) && decide (0x30 ≤ magic.getD 5 0) &&
  decide (0x30 ≤ magic.getD 6 0) && decide (magic.getD 4 0 ≤ 0x39) &&
  decide (magic.getD 5 0 ≤ 0x39) && decide (magic.getD 6 0 ≤ 0x39)

/-- Wrapping `u8` subtraction (operands are bytes, i.e. below 256). -/
def sub8 (a b : Nat) : Nat := (a + 256 - b % 256) % 256

/-- `Header::get_dex_version` (`src/src/lib.rs` lines 663-665). The Rust body
`(self.magic[4] - 0x30) * 100 + (self.magic[5] - 0x30) * 10 + (self.magic[6] - 0x30)`
computes in `u8`, so every operation wraps modulo 256. -/
def Header.get_dex_version (h : Header) : Nat :=
  (sub8 (h.magic.getD 4 0) 0x30 * 100 % 256 + sub8 (h.magic.getD 5 0) 0x30 * 10 % 256 +
    sub8 (h.magic.getD 6 0) 0x30) % 256

/-- The running offset right after the string-ID table: `0x70` plus 4 bytes
per string ID (`src/src/lib.rs` line 427). -/
def Header.strings_end (h : Header) : Nat := HEADER_SIZE + h.string_ids_size * 4

/-- The running offset right after the type-ID table (4 bytes per record,
`src/src/lib.rs` line 449). -/
def Header.types_end (h : Header) : Nat := h.strings_end + h.type_ids_size * 4

/-- The running offset right after the prototype-ID table (12 bytes per
record, `src/src/lib.rs` line 471). -/
def Header.prototypes_end (h : Header) : Nat := h.types_end + h.prototype_ids_size * 12

/-- The running offset right after the field-ID table (8 bytes per record,
`src/src/lib.rs` line 493). -/
def Header.fields_end (h : Header) : Nat := h.prototypes_end + h.field_ids_size * 8

/-- The running offset right after the method-ID table (8 bytes per record,
`src/src/lib.rs` line 515). -/
def Header.methods_end (h : Header) : Nat := h.fields_end + h.method_ids_size * 8

/-- The running offset right after the class-def table (32 bytes per record,
`src/src/lib.rs` line 537): the cumulative offset over all six tables. -/
def Header.tables_end (h : Header) : Nat := h.methods_end + h.class_defs_size * 32

/-- One table block of `Header::from_reader`: read a `(size, offset)` pair and
run its two offset checks, returning the pair, the advanced running offset and
the rest of the stream. Mirrors each of the six blocks at `src/src/lib.rs`
lines 407-537 (for the string table the source writes the literal
`HEADER_SIZE` as the expected offset of the first error; the value passed
there as `current` is `HEADER_SIZE` itself, so the error is identical). -/
def read_table (name : String) (width : Nat) (bo : ByteOrder) (current : Nat)
    (s : List Nat) : Except Error (Nat × Nat × Nat × List Nat) :=
  match readU32 bo s with
  | none => .error .ioError
  | some (size, s) =>
    match readU32 bo s with
    | none => .error .ioError
    | some (offset, s) =>
      if 0 < size ∧ offset ≠ current then .error (.mismatchedOffsets name offset current)
      else if size = 0 ∧ offset ≠ 0 then .error (.mismatchedOffsets name offset 0)
      else .ok (size, offset, current + size * width, s)

/-- The pure validations of `Header::from_reader` that follow the `data_offset`
read (`src/src/lib.rs` lines 561-589): map bounds, data-reaches-EOF when there
is no link section, and the two link-section checks. The `data_offset`
vs. running-offset comparison of lines 557-560 is commented out in the source
and therefore absent here. -/
def final_checks (link_size link_offset map_offset file_size current data_size data_offset : Nat) :
    Except Error Unit :=
  if map_offset < data_offset ∨ map_offset > data_offset + data_size then
    .error (.mismatchedOffsetsMsg "map_offset section must be in the data section")
  else if link_size = 0 ∧ data_offset + data_size ≠ file_size then
    .error (.header "data section must end at the EOF if there are no links in the file")
  else
    -- the source rebinds `current_offset += data_size` here; written inline below
    if link_size ≠ 0 ∧ link_offset = 0 then
      .error (.mismatchedOffsets "link_offset" 0 (current + data_size))
    else if link_size ≠ 0 ∧ link_offset ≠ 0 then
      if link_offset ≠ current + data_size then
        .error (.mismatchedOffsets "link_offset" link_offset (data_offset + data_size))
      else if link_offset + link_size ≠ file_size then
        .error (.header "link_data section must end at the end of file")
      else .ok ()
    else .ok ()

/-- `Header::from_reader` after the endian tag has been resolved
(`src/src/lib.rs` lines 367-648): the arguments are the already-read magic,
(possibly byte-swapped) checksum, signature, file size and header size, and
the endian tag. -/
def Header.from_reader_rest (magic : List Nat) (checksum : Nat) (signature : List Nat)
    (file_size header_size endian_tag : Nat) (s : List Nat) : Except Error Header :=
  if header_size ≠ HEADER_SIZE then .error (.invalidHeaderSize header_size)
  else if file_size < HEADER_SIZE then .error (.invalidFileSize 0 (some file_size))
  else
    let bo := if endian_tag = ENDIAN_CONSTANT then ByteOrder.le else ByteOrder.be
    match readU32 bo s with
    | none => .error .ioError
    | some (link_size, s) =>
    match readU32 bo s with
    | none => .error .ioError
    | some (link_offset, s) =>
    if link_size = 0 ∧ link_offset ≠ 0 then
      .error (.mismatchedOffsets "link_offset" link_offset 0)
    else
    match readU32 bo s with
    | none => .error .ioError
    | some (map_offset, s) =>
    if map_offset = 0 then
      .error (.mismatchedOffsetsMsg "map_offset was 0x00, and it can never be zero")
    else
    match read_table "string_ids_offset" 4 bo HEADER_SIZE s with
    | .error e => .error e
    | .ok (string_ids_size, string_ids_offset, current, s) =>
    match read_table "type_ids_offset" 4 bo current s with
    | .error e => .error e
    | .ok (type_ids_size, type_ids_offset, current, s) =>
    match read_table "prototype_ids_offset" 12 bo current s with
    | .error e => .error e
    | .ok (prototype_ids_size, prototype_ids_offset, current, s) =>
    match read_table "field_ids_offset" 8 bo current s with
    | .error e => .error e
    | .ok (field_ids_size, field_ids_offset, current, s) =>
    match read_table "method_ids_offset" 8 bo current s with
    | .error e => .error e
    | .ok (method_ids_size, method_ids_offset, current, s) =>
    match read_table "class_defs_offset" 32 bo current s with
    | .error e => .error e
    | .ok (class_defs_size, class_defs_offset, current, s) =>
    match readU32 bo s with
    | none => .error .ioError
    | some (data_size, s) =>
    if data_size % 4 ≠ 0 then .error (.header "data_size must be a 4-byte multiple")
    else
    match readU32 bo s with
    | none => .error .ioError
    | some (data_offset, _s) =>
    match final_checks link_size link_offset map_offset file_size current data_size data_offset with
    | .error e => .error e
    | .ok _ =>
      .ok { magic := magic
            checksum := checksum
            signature := signature
            file_size := file_size
            header_size := header_size
            endian_tag := endian_tag
            link_size := if link_size = 0 then none else some link_size
            link_offset := if link_offset = 0 then none else some link_offset
            map_offset := map_offset
            string_ids_size := string_ids_size
            string_ids_offset := if 0 < string_ids_offset then some string_ids_offset else none
            type_ids_size := type_ids_size
            type_ids_offset := if 0 < type_ids_offset then some type_ids_offset else none
            prototype_ids_size := prototype_ids_size
            prototype_ids_offset :=
              if 0 < prototype_ids_size then some prototype_ids_offset else none
            field_ids_size := field_ids_size
            field_ids_offset := if 0 < field_ids_size then some field_ids_offset else none
            method_ids_size := method_ids_size
            method_ids_offset := if 0 < method_ids_size then some method_ids_offset else none
            class_defs_size := class_defs_size
            class_defs_offset := if 0 < class_defs_size then some class_defs_offset else none
            data_size := data_size
            data_offset := data_offset }

/-- `Header::from_reader` (`src/src/lib.rs` lines 339-648). -/
def Header.from_reader (s : List Nat) : Except Error Header :=
  match readExact 8 s with
  | none => .error .ioError
  | some (magic, s) =>
    if ¬ Header.is_magic_valid magic then .error (.invalidMagic magic)
    else
    match readU32 .le s with
    | none => .error .ioError
    | some (checksum, s) =>
    match readExact 20 s with
    | none => .error .ioError
    | some (signature, s) =>
    match readU32 .le s with
    | none => .error .ioError
    | some (file_size, s) =>
    match readU32 .le s with
    | none => .error .ioError
    | some (header_size, s) =>
    match readU32 .le s with
    | none => .error .ioError
    | some (endian_tag, s) =>
      if endian_tag = REVERSE_ENDIAN_CONSTANT then
        Header.from_reader_rest magic (swap32 checksum) signature (swap32 file_size)
          (swap32 header_size) endian_tag s
      else if endian_tag ≠ ENDIAN_CONSTANT then .error (.invalidEndianTag endian_tag)
      else
        Header.from_reader_rest magic checksum signature file_size header_size endian_tag s

/-- Result of an operation that can also hit `unimplemented!()` (a panic). -/
inductive Outcome (α : Type) where
  | ok (a : α) : Outcome α
  | err (e : Error) : Outcome α
  | panic : Outcome α
deriving DecidableEq, Repr

/-- Whether an `Outcome` is a successful return. -/
def Outcome.isOk {α : Type} : Outcome α → Bool
  | .ok _ => true
  | _ => false

/-- `Header::from_file` (`src/src/lib.rs` lines 322-336). The file at the path
is modelled by its byte content `file`; the `metadata().len()` physical length
is `file.length`. The source also rejects a length above `usize::MAX`, which
cannot happen for a `u64` length on the 64-bit target and is not modelled.
With `verify = true` a successfully decoded and size-checked header reaches
`unimplemented!()`. -/
def Header.from_file (file : List Nat) (verify : Bool) : Outcome Header :=
  if file.length < HEADER_SIZE then .err (.invalidFileSize file.length none)
  else
    match Header.from_reader file with
    | .error e => .err e
    | .ok header =>
      if file.length ≠ header.file_size then
        .err (.invalidFileSize file.length (some header.file_size))
      else if verify then .panic
      else .ok header

/-- Modelled from the spec: `StringIdData` of the `types` module (not under
`src/`), spec section 3 — one 32-bit offset into the data section. -/
structure StringIdData where
  offset : Nat
deriving DecidableEq, Repr

/-- Modelled from the spec: `TypeIdData` of the `types` module (not under
`src/`), spec section 3 — one 32-bit index into the string table. -/
structure TypeIdData where
  string_id : Nat
deriving DecidableEq, Repr

/-- Modelled from the spec: `PrototypeIdData` of the `types` module (not under
`src/`), spec section 3 — shorty index, return-type index, parameter-list
offset (zero meaning absent). -/
structure PrototypeIdData where
  shorty_id : Nat
  return_type_id : Nat
  parameters_offset : Option Nat
deriving DecidableEq, Repr

/-- Modelled from the spec: `FieldIdData` of the `types` module (not under
`src/`), spec section 3. -/
structure FieldIdData where
  class_id : Nat
  type_id : Nat
  name_id : Nat
deriving DecidableEq, Repr

/-- Modelled from the spec: `MethodIdData` of the `types` module (not under
`src/`), spec section 3. -/
structure MethodIdData where
  class_id : Nat
  prototype_id : Nat
  name_id : Nat
deriving DecidableEq, Repr

/-- Modelled from the spec: `ClassDefData` of the `types` module (not under
`src/`), spec section 3 — sentinel `0xffffffff` means no superclass / no
source file, an offset of zero means absent. -/
structure ClassDefData where
  class_id : Nat
  access_flags : Nat
  superclass_id : Option Nat
  interfaces_offset : Option Nat
  source_file_id : Option Nat
  annotations_offset : Option Nat
  class_data_offset : Option Nat
  static_values_offset : Option Nat
deriving DecidableEq, Repr

/-- Modelled from the spec: fallible `ClassDefData::new` (spec section 3:
construction validates the sentinel/absence conventions; the spec states no
combination that must be rejected, so every combination maps through the
sentinel decoding). -/
def ClassDefData.new (class_id access_flags superclass_id interfaces_offset source_file_id
    annotations_offset class_data_offset static_values_offset : Nat) :
    Except Error ClassDefData :=
  .ok { class_id := class_id
        access_flags := access_flags
        superclass_id := if superclass_id = 0xffffffff then none else some superclass_id
        interfaces_offset := if interfaces_offset = 0 then none else some interfaces_offset
        source_file_id := if source_file_id = 0xffffffff then none else some source_file_id
        annotations_offset := if annotations_offset = 0 then none else some annotations_offset
        class_data_offset := if class_data_offset = 0 then none else some class_data_offset
        static_values_offset :=
          if static_values_offset = 0 then none else some static_values_offset }

/-- The string-offset loop of `Dex::new` (`src/src/lib.rs` lines 47-56). -/
def read_string_ids (bo : ByteOrder) : Nat → List Nat → Except Error (List StringIdData × List Nat)
  | 0, s => .ok ([], s)
  | n + 1, s =>
    match readU32 bo s with
    | none => .error .ioError
    | some (v, s) =>
      match read_string_ids bo n s with
      | .error e => .error e
      | .ok (l, s) => .ok (⟨v⟩ :: l, s)

/-- The type-index loop of `Dex::new` (`src/src/lib.rs` lines 58-67). -/
def read_type_ids (bo : ByteOrder) : Nat → List Nat → Except Error (List TypeIdData × List Nat)
  | 0, s => .ok ([], s)
  | n + 1, s =>
    match readU32 bo s with
    | none => .error .ioError
    | some (v, s) =>
      match read_type_ids bo n s with
      | .error e => .error e
      | .ok (l, s) => .ok (⟨v⟩ :: l, s)

/-- The prototype-ID loop of `Dex::new` (`src/src/lib.rs` lines 69-89). -/
def read_prototype_ids (bo : ByteOrder) :
    Nat → List Nat → Except Error (List PrototypeIdData × List Nat)
  | 0, s => .ok ([], s)
  | n + 1, s =>
    match readU32 bo s with
    | none => .error .ioError
    | some (shorty_id, s) =>
      match readU32 bo s with
      | none => .error .ioError
      | some (return_type_id, s) =>
        match readU32 bo s with
        | none => .error .ioError
        | some (parameters_offset, s) =>
          match read_prototype_ids bo n s with
          | .error e => .error e
          | .ok (l, s) =>
            .ok (⟨shorty_id, return_type_id,
                  if parameters_offset = 0 then none else some parameters_offset⟩ :: l, s)

/-- The field-ID loop of `Dex::new` (`src/src/lib.rs` lines 91-111). -/
def read_field_ids (bo : ByteOrder) : Nat → List Nat → Except Error (List FieldIdData × List Nat)
  | 0, s => .ok ([], s)
  | n + 1, s =>
    match readU16 bo s with
    | none => .error .ioError
    | some (class_id, s) =>
      match readU16 bo s with
      | none => .error .ioError
      | some (type_id, s) =>
        match readU32 bo s with
        | none => .error .ioError
        | some (name_id, s) =>
          match read_field_ids bo n s with
          | .error e => .error e
          | .ok (l, s) => .ok (⟨class_id, type_id, name_id⟩ :: l, s)

/-- The method-ID loop of `Dex::new` (`src/src/lib.rs` lines 113-133). -/
def read_method_ids (bo : ByteOrder) : Nat → List Nat → Except Error (List MethodIdData × List Nat)
  | 0, s => .ok ([], s)
  | n + 1, s =>
    match readU16 bo s with
    | none => .error .ioError
    | some (class_id, s) =>
      match readU16 bo s with
      | none => .error .ioError
      | some (prototype_id, s) =>
        match readU32 bo s with
        | none => .error .ioError
        | some (name_id, s) =>
          match read_method_ids bo n s with
          | .error e => .error e
          | .ok (l, s) => .ok (⟨class_id, prototype_id, name_id⟩ :: l, s)

/-- The class-definition loop of `Dex::new` (`src/src/lib.rs` lines 135-187):
eight 32-bit reads per record, then the fallible `ClassDefData::new`. -/
def read_class_defs (bo : ByteOrder) : Nat → List Nat → Except Error (List ClassDefData × List Nat)
  | 0, s => .ok ([], s)
  | n + 1, s =>
    match readU32 bo s with
    | none => .error .ioError
    | some (class_id, s) =>
    match readU32 bo s with
    | none => .error .ioError
    | some (access_flags, s) =>
    match readU32 bo s with
    | none => .error .ioError
    | some (superclass_id, s) =>
    match readU32 bo s with
    | none => .error .ioError
    | some (interfaces_offset, s) =>
    match readU32 bo s with
    | none => .error .ioError
    | some (source_file_id, s) =>
    match readU32 bo s with
    | none => .error .ioError
    | some (annotations_offset, s) =>
    match readU32 bo s with
    | none => .error .ioError
    | some (class_data_offset, s) =>
    match readU32 bo s with
    | none => .error .ioError
    | some (static_values_offset, s) =>
      match ClassDefData.new class_id access_flags superclass_id interfaces_offset
          source_file_id annotations_offset class_data_offset static_values_offset with
      | .error e => .error e
      | .ok cd =>
        match read_class_defs bo n s with
        | .error e => .error e
        | .ok (l, s) => .ok (cd :: l, s)

/-- The `Prototype` struct of `src/src/lib.rs` lines 792-794 (fields TODO). -/
structure Prototype where

/-- The `Field` struct of `src/src/lib.rs` lines 796-798 (fields TODO). -/
structure Field where

/-- The `Method` struct of `src/src/lib.rs` lines 800-802 (fields TODO). -/
structure Method where

/-- The `ClassDef` struct of `src/src/lib.rs` lines 804-806 (fields TODO). -/
structure ClassDef where

/-- The `Dex` struct of `src/src/lib.rs` lines 18-26. -/
structure Dex where
  header : Header
  strings : List String
  types : List String
  prototypes : List Prototype
  fields : List Field
  methods : List Method
  classes : List ClassDef

/-- `Dex::new` (`src/src/lib.rs` lines 30-193). With `verify = true` the
header is decoded through `Header::from_file(path, true)` and the header
bytes are skipped again from a fresh reader; with `verify = false` the header
is decoded from the stream, which leaves the reader right after the 0x70
header bytes. Then the six identifier tables are read, and the remaining body
is `unimplemented!()` (`src/src/lib.rs` line 192). -/
def Dex.new (file : List Nat) (verify : Bool) : Outcome Dex :=
  let headerStage : Outcome (Header × List Nat) :=
    if verify then
      match Header.from_file file true with
      | .err e => .err e
      | .panic => .panic
      | .ok h =>
        if HEADER_SIZE ≤ file.length then .ok (h, file.drop HEADER_SIZE) else .err .ioError
    else
      match Header.from_reader file with
      | .error e => .err e
      | .ok h => .ok (h, file.drop HEADER_SIZE)
  match headerStage with
  | .err e => .err e
  | .panic => .panic
  | .ok (header, s) =>
    let bo := if header.endian_tag = ENDIAN_CONSTANT then ByteOrder.le else ByteOrder.be
    match read_string_ids bo header.string_ids_size s with
    | .error e => .err e
    | .ok (_, s) =>
    match read_type_ids bo header.type_ids_size s with
    | .error e => .err e
    | .ok (_, s) =>
    match read_prototype_ids bo header.prototype_ids_size s with
    | .error e => .err e
    | .ok (_, s) =>
    match read_field_ids bo header.field_ids_size s with
    | .error e => .err e
    | .ok (_, s) =>
    match read_method_ids bo header.method_ids_size s with
    | .error e => .err e
    | .ok (_, s) =>
    match read_class_defs bo header.class_defs_size s with
    | .error e => .err e
    | .ok (_, _) => .panic

/-! ## Reader primitive lemmas -/

theorem getD_drop_add (s : List Nat) (i j : Nat) : (s.drop i).getD j 0 = s.getD (i + j) 0 := by
  induction i generalizing s with
  | zero => simp
  | succ i ih =>
    cases s with
    | nil => simp [List.getD]
    | cons a t => simp [Nat.succ_add, ih t]

theorem rawU32_drop (bo : ByteOrder) (s : List Nat) (i j : Nat) :
    rawU32 bo (s.drop i) j = rawU32 bo s (i + j) := by
  cases bo <;> simp [rawU32, getD_drop_add, Nat.add_assoc]

theorem readU32_of_len {bo : ByteOrder} {s : List Nat} (h : 4 ≤ s.length) :
    readU32 bo s = some (rawU32 bo s 0, s.drop 4) := by
  rcases s with _ | ⟨b0, _ | ⟨b1, _ | ⟨b2, _ | ⟨b3, t⟩⟩⟩⟩ <;> simp at h <;> cases bo <;> rfl

theorem readU32_some {bo : ByteOrder} {s : List Nat} {v : Nat} {r : List Nat}
    (h : readU32 bo s = some (v, r)) :
    v = rawU32 bo s 0 ∧ r = s.drop 4 ∧ 4 ≤ s.length := by
  rcases s with _ | ⟨b0, _ | ⟨b1, _ | ⟨b2, _ | ⟨b3, t⟩⟩⟩⟩ <;> cases bo <;>
    simp only [readU32, Option.some.injEq, Prod.mk.injEq, reduceCtorEq] at h
  all_goals
    obtain ⟨h1, h2⟩ := h
    refine ⟨h1.symm, h2.symm, by simp⟩

theorem readExact_of_len {n : Nat} {s : List Nat} (h : n ≤ s.length) :
    readExact n s = some ((s.take n).map (fun b => b % 256), s.drop n) := by
  unfold readExact
  rw [if_pos h]

theorem readExact_some {n : Nat} {s : List Nat} {m r : List Nat}
    (h : readExact n s = some (m, r)) :
    m = (s.take n).map (fun b => b % 256) ∧ r = s.drop n ∧ n ≤ s.length := by
  unfold readExact at h
  split at h
  · next hl =>
    simp only [Option.some.injEq, Prod.mk.injEq] at h
    exact ⟨h.1.symm, h.2.symm, hl⟩
  · exact Option.noConfusion h

/-! ## Characterization of the decode stages -/

theorem read_table_ok {name : String} {w : Nat} {bo : ByteOrder} {cur : Nat} {s : List Nat}
    {size offset cur2 : Nat} {s2 : List Nat}
    (h : read_table name w bo cur s = .ok (size, offset, cur2, s2)) :
    size = rawU32 bo s 0 ∧ offset = rawU32 bo s 4 ∧ cur2 = cur + size * w ∧ s2 = s.drop 8 ∧
      8 ≤ s.length ∧ (0 < size → offset = cur) ∧ (size = 0 → offset = 0) := by
  unfold read_table at h
  split at h
  · exact Except.noConfusion h
  next sz s1 h1 =>
  split at h
  · exact Except.noConfusion h
  next off s2' h2 =>
  split at h
  · exact Except.noConfusion h
  next hc1 =>
  split at h
  · exact Except.noConfusion h
  next hc2 =>
  rw [Except.ok.injEq] at h
  obtain ⟨rfl, rfl, rfl, rfl⟩ := h.symm
  obtain ⟨hv1, hr1, hl1⟩ := readU32_some h1
  obtain ⟨hv2, hr2, hl2⟩ := readU32_some h2
  subst hv1 hr1 hv2 hr2
  simp only [rawU32_drop, Nat.add_zero] at hc1 hc2 ⊢
  refine ⟨by trivial, by trivial, by trivial, by rw [List.drop_drop],
    by simp at hl2 ⊢; omega, ?_, ?_⟩
  · intro hpos
    by_contra hne
    exact hc1 ⟨hpos, hne⟩
  · intro hz
    by_contra hne
    exact hc2 ⟨hz, hne⟩

theorem final_checks_ok {ls lo mo fs cur ds doff : Nat} {u : Unit}
    (h : final_checks ls lo mo fs cur ds doff = .ok u) :
    doff ≤ mo ∧ mo ≤ doff + ds ∧ (ls = 0 → doff + ds = fs) ∧
      (ls ≠ 0 → lo ≠ 0 ∧ lo = cur + ds ∧ lo + ls = fs) := by
  unfold final_checks at h
  split at h
  · exact Except.noConfusion h
  next hmap =>
  split at h
  · exact Except.noConfusion h
  next heof =>
  push_neg at hmap
  split at h
  · exact Except.noConfusion h
  next hlz =>
  split at h
  · next hne =>
    split at h
    · exact Except.noConfusion h
    next hcur =>
    split at h
    · exact Except.noConfusion h
    next hfs =>
    refine ⟨hmap.1, hmap.2, fun h0 => absurd h0 (by tauto), fun _ => ⟨hne.2, by omega, by omega⟩⟩
  · next hboth =>
    refine ⟨hmap.1, hmap.2, ?_, ?_⟩
    · intro h0
      by_contra hne
      exact heof ⟨h0, hne⟩
    · intro hlsne
      have hlo0 : lo = 0 := by tauto
      exact absurd ⟨hlsne, hlo0⟩ hlz

/-- Everything that holds of a header successfully produced by
`Header.from_reader_rest` with arguments `m c sg fs hs tag` from stream `s`,
reading multi-byte values with byte order `bo`. -/
structure RestFacts (bo : ByteOrder) (m : List Nat) (c : Nat) (sg : List Nat)
    (fs hs tag : Nat) (s : List Nat) (h : Header) : Prop where
  magic_eq : h.magic = m
  checksum_eq : h.checksum = c
  signature_eq : h.signature = sg
  file_size_eq : h.file_size = fs
  header_size_eq : h.header_size = hs
  endian_tag_eq : h.endian_tag = tag
  header_size_val : hs = HEADER_SIZE
  file_size_ge : HEADER_SIZE ≤ fs
  link_size_eq : h.link_size = if rawU32 bo s 0 = 0 then none else some (rawU32 bo s 0)
  link_offset_eq : h.link_offset = if rawU32 bo s 4 = 0 then none else some (rawU32 bo s 4)
  link_iff : h.link_size.isSome ↔ h.link_offset.isSome
  map_ne : h.map_offset ≠ 0
  strings_pos : 0 < h.string_ids_size → h.string_ids_offset = some HEADER_SIZE
  strings_zero : h.string_ids_size = 0 → h.string_ids_offset = none
  types_pos : 0 < h.type_ids_size → h.type_ids_offset = some h.strings_end
  types_zero : h.type_ids_size = 0 → h.type_ids_offset = none
  prototypes_pos : 0 < h.prototype_ids_size → h.prototype_ids_offset = some h.types_end
  prototypes_zero : h.prototype_ids_size = 0 → h.prototype_ids_offset = none
  fields_pos : 0 < h.field_ids_size → h.field_ids_offset = some h.prototypes_end
  fields_zero : h.field_ids_size = 0 → h.field_ids_offset = none
  methods_pos : 0 < h.method_ids_size → h.method_ids_offset = some h.fields_end
  methods_zero : h.method_ids_size = 0 → h.method_ids_offset = none
  classes_pos : 0 < h.class_defs_size → h.class_defs_offset = some h.methods_end
  classes_zero : h.class_defs_size = 0 → h.class_defs_offset = none
  data_align : h.data_size % 4 = 0
  map_lb : h.data_offset ≤ h.map_offset
  map_ub : h.map_offset ≤ h.data_offset + h.data_size
  no_link_eof : h.link_size = none → h.data_offset + h.data_size = fs
  link_facts : ∀ n, h.link_size = some n →
    h.link_offset = some (h.tables_end + h.data_size) ∧ h.tables_end + h.data_size + n = fs

set_option maxHeartbeats 1000000 in
theorem from_reader_rest_ok {m : List Nat} {c : Nat} {sg : List Nat} {fs hs tag : Nat}
    {s : List Nat} {h : Header} {bo : ByteOrder}
    (hbo : bo = if tag = ENDIAN_CONSTANT then ByteOrder.le else ByteOrder.be)
    (hok : Header.from_reader_rest m c sg fs hs tag s = .ok h) :
    RestFacts bo m c sg fs hs tag s h := by
  simp only [Header.from_reader_rest] at hok
  rw [← hbo] at hok
  split at hok
  · exact Except.noConfusion hok
  next hhs =>
  split at hok
  · exact Except.noConfusion hok
  next hfsl =>
  split at hok
  · exact Except.noConfusion hok
  next ls s1 hls =>
  split at hok
  · exact Except.noConfusion hok
  next lo s2 hlo =>
  split at hok
  · exact Except.noConfusion hok
  next hlk =>
  split at hok
  · exact Except.noConfusion hok
  next mo s3 hmo =>
  split at hok
  · exact Except.noConfusion hok
  next hmz =>
  split at hok
  · exact Except.noConfusion hok
  next sz1 off1 cur1 s4 ht1 =>
  split at hok
  · exact Except.noConfusion hok
  next sz2 off2 cur2 s5 ht2 =>
  split at hok
  · exact Except.noConfusion hok
  next sz3 off3 cur3 s6 ht3 =>
  split at hok
  · exact Except.noConfusion hok
  next sz4 off4 cur4 s7 ht4 =>
  split at hok
  · exact Except.noConfusion hok
  next sz5 off5 cur5 s8 ht5 =>
  split at hok
  · exact Except.noConfusion hok
  next sz6 off6 cur6 s9 ht6 =>
  split at hok
  · exact Except.noConfusion hok
  next ds s10 hds =>
  split at hok
  · exact Except.noConfusion hok
  next hal =>
  split at hok
  · exact Except.noConfusion hok
  next doff s11 hdo =>
  split at hok
  · exact Except.noConfusion hok
  next u hfc =>
  rw [Except.ok.injEq] at hok
  subst hok
  obtain ⟨hv1, hr1, hl1⟩ := readU32_some hls
  obtain ⟨hv2, hr2, hl2⟩ := readU32_some hlo
  obtain ⟨e1a, e1b, e1c, e1d, e1e, e1f, e1g⟩ := read_table_ok ht1
  obtain ⟨e2a, e2b, e2c, e2d, e2e, e2f, e2g⟩ := read_table_ok ht2
  obtain ⟨e3a, e3b, e3c, e3d, e3e, e3f, e3g⟩ := read_table_ok ht3
  obtain ⟨e4a, e4b, e4c, e4d, e4e, e4f, e4g⟩ := read_table_ok ht4
  obtain ⟨e5a, e5b, e5c, e5d, e5e, e5f, e5g⟩ := read_table_ok ht5
  obtain ⟨e6a, e6b, e6c, e6d, e6e, e6f, e6g⟩ := read_table_ok ht6
  obtain ⟨f1, f2, f3, f4⟩ := final_checks_ok hfc
  subst hr1
  have hlo4 : lo = rawU32 bo s 4 := by
    rw [hv2, rawU32_drop]
  refine
    { magic_eq := rfl
      checksum_eq := rfl
      signature_eq := rfl
      file_size_eq := rfl
      header_size_eq := rfl
      endian_tag_eq := rfl
      header_size_val := by omega
      file_size_ge := by omega
      link_size_eq := by
        show (if ls = 0 then none else some ls : Option Nat) = _
        rw [hv1]
      link_offset_eq := by
        show (if lo = 0 then none else some lo : Option Nat) = _
        rw [hlo4]
      link_iff := ?_
      map_ne := hmz
      strings_pos := ?_
      strings_zero := ?_
      types_pos := ?_
      types_zero := ?_
      prototypes_pos := ?_
      prototypes_zero := ?_
      fields_pos := ?_
      fields_zero := ?_
      methods_pos := ?_
      methods_zero := ?_
      classes_pos := ?_
      classes_zero := ?_
      data_align := by
        show ds % 4 = 0
        omega
      map_lb := by
        show doff ≤ mo
        exact f1
      map_ub := by
        show mo ≤ doff + ds
        exact f2
      no_link_eof := ?_
      link_facts := ?_ }
  · show (if ls = 0 then none else some ls : Option Nat).isSome ↔
      (if lo = 0 then none else some lo : Option Nat).isSome
    by_cases hz : ls = 0
    · have hl0 : lo = 0 := by
        by_contra hne
        exact hlk ⟨hz, hne⟩
      simp [hz, hl0]
    · have hl0 : lo ≠ 0 := (f4 hz).1
      simp [hz, hl0]
  · intro hp
    show (if 0 < off1 then some off1 else none : Option Nat) = _
    rw [e1f hp]
    norm_num [HEADER_SIZE]
  · intro hz
    show (if 0 < off1 then some off1 else none : Option Nat) = _
    rw [e1g hz]
    norm_num
  · intro hp
    show (if 0 < off2 then some off2 else none : Option Nat) = _
    rw [e2f hp, e1c]
    norm_num [HEADER_SIZE, Header.strings_end]
  · intro hz
    show (if 0 < off2 then some off2 else none : Option Nat) = _
    rw [e2g hz]
    norm_num
  · intro hp
    show (if 0 < sz3 then some off3 else none : Option Nat) = _
    rw [if_pos hp, e3f hp, e2c, e1c]
    rfl
  · intro hz
    show (if 0 < sz3 then some off3 else none : Option Nat) = _
    have hz' : sz3 = 0 := hz
    rw [hz']
    norm_num
  · intro hp
    show (if 0 < sz4 then some off4 else none : Option Nat) = _
    rw [if_pos hp, e4f hp, e3c, e2c, e1c]
    rfl
  · intro hz
    show (if 0 < sz4 then some off4 else none : Option Nat) = _
    have hz' : sz4 = 0 := hz
    rw [hz']
    norm_num
  · intro hp
    show (if 0 < sz5 then some off5 else none : Option Nat) = _
    rw [if_pos hp, e5f hp, e4c, e3c, e2c, e1c]
    rfl
  · intro hz
    show (if 0 < sz5 then some off5 else none : Option Nat) = _
    have hz' : sz5 = 0 := hz
    rw [hz']
    norm_num
  · intro hp
    show (if 0 < sz6 then some off6 else none : Option Nat) = _
    rw [if_pos hp, e6f hp, e5c, e4c, e3c, e2c, e1c]
    rfl
  · intro hz
    show (if 0 < sz6 then some off6 else none : Option Nat) = _
    have hz' : sz6 = 0 := hz
    rw [hz']
    norm_num
  · intro hnone
    have hnone' : (if ls = 0 then none else some ls : Option Nat) = none := hnone
    have hz : ls = 0 := by
      by_contra hne
      rw [if_neg hne] at hnone'
      exact Option.noConfusion hnone'
    exact f3 hz
  · intro n hsome
    have hsome' : (if ls = 0 then none else some ls : Option Nat) = some n := hsome
    have hne : ls ≠ 0 := by
      intro hz
      rw [if_pos hz] at hsome'
      exact Option.noConfusion hsome'
    have hn : ls = n := by
      rw [if_neg hne, Option.some.injEq] at hsome'
      exact hsome'
    obtain ⟨g1, g2, g3⟩ := f4 hne
    have hcur : cur6 = HEADER_SIZE + sz1 * 4 + sz2 * 4 + sz3 * 12 + sz4 * 8 + sz5 * 8 + sz6 * 32 := by
      rw [e6c, e5c, e4c, e3c, e2c, e1c]
    constructor
    · show (if lo = 0 then none else some lo : Option Nat) = _
      rw [if_neg g1, g2, hcur]
      rfl
    · show HEADER_SIZE + sz1 * 4 + sz2 * 4 + sz3 * 12 + sz4 * 8 + sz5 * 8 + sz6 * 32 + ds + n = fs
      omega

theorem from_reader_eval_preamble {s : List Nat} (hlen : 44 ≤ s.length)
    (hmagic : Header.is_magic_valid ((s.take 8).map (fun b => b % 256)) = true) :
    Header.from_reader s =
      if rawU32 .le s 40 = REVERSE_ENDIAN_CONSTANT then
        Header.from_reader_rest ((s.take 8).map (fun b => b % 256)) (swap32 (rawU32 .le s 8))
          (((s.drop 12).take 20).map (fun b => b % 256)) (swap32 (rawU32 .le s 32))
          (swap32 (rawU32 .le s 36)) (rawU32 .le s 40) (s.drop 44)
      else if rawU32 .le s 40 ≠ ENDIAN_CONSTANT then
        .error (.invalidEndianTag (rawU32 .le s 40))
      else
        Header.from_reader_rest ((s.take 8).map (fun b => b % 256)) (rawU32 .le s 8)
          (((s.drop 12).take 20).map (fun b => b % 256)) (rawU32 .le s 32) (rawU32 .le s 36)
          (rawU32 .le s 40) (s.drop 44) := by
  have h8 : (8 : Nat) ≤ s.length := by omega
  have hd8 : (4 : Nat) ≤ (s.drop 8).length := by simp; omega
  have hd12 : (20 : Nat) ≤ (s.drop 12).length := by simp; omega
  have hd32 : (4 : Nat) ≤ (s.drop 32).length := by simp; omega
  have hd36 : (4 : Nat) ≤ (s.drop 36).length := by simp; omega
  have hd40 : (4 : Nat) ≤ (s.drop 40).length := by simp; omega
  have e1 : readU32 ByteOrder.le (List.drop 8 s) =
      some (rawU32 ByteOrder.le s 8, List.drop 12 s) := by
    rw [readU32_of_len hd8, rawU32_drop, List.drop_drop]
  have e2 : readExact 20 (List.drop 12 s) =
      some (((s.drop 12).take 20).map (fun b => b % 256), List.drop 32 s) := by
    rw [readExact_of_len hd12, List.drop_drop]
  have e3 : readU32 ByteOrder.le (List.drop 32 s) =
      some (rawU32 ByteOrder.le s 32, List.drop 36 s) := by
    rw [readU32_of_len hd32, rawU32_drop, List.drop_drop]
  have e4 : readU32 ByteOrder.le (List.drop 36 s) =
      some (rawU32 ByteOrder.le s 36, List.drop 40 s) := by
    rw [readU32_of_len hd36, rawU32_drop, List.drop_drop]
  have e5 : readU32 ByteOrder.le (List.drop 40 s) =
      some (rawU32 ByteOrder.le s 40, List.drop 44 s) := by
    rw [readU32_of_len hd40, rawU32_drop, List.drop_drop]
  unfold Header.from_reader
  rw [readExact_of_len h8]
  simp only [e1, e2, e3, e4, e5, hmagic, not_true_eq_false, Bool.false_eq_true, if_false]

/-- A successful `Header::from_reader` run consumed at least the 44 preamble
bytes and saw a valid magic. -/
theorem from_reader_ok_len_magic {s : List Nat} {h : Header}
    (hok : Header.from_reader s = .ok h) :
    44 ≤ s.length ∧ Header.is_magic_valid ((s.take 8).map (fun b => b % 256)) = true := by
  unfold Header.from_reader at hok
  split at hok
  · exact Except.noConfusion hok
  next m s1 hm =>
  split at hok
  · exact Except.noConfusion hok
  next hmagic =>
  split at hok
  · exact Except.noConfusion hok
  next c s2 hc =>
  split at hok
  · exact Except.noConfusion hok
  next sg s3 hsg =>
  split at hok
  · exact Except.noConfusion hok
  next fs' s4 hfs =>
  split at hok
  · exact Except.noConfusion hok
  next hs' s5 hhs =>
  split at hok
  · exact Except.noConfusion hok
  next tag s6 htag =>
  obtain ⟨hm1, hm2, hm3⟩ := readExact_some hm
  subst hm1 hm2
  obtain ⟨-, hc2, hc3⟩ := readU32_some hc
  subst hc2
  obtain ⟨hg1, hg2, hg3⟩ := readExact_some hsg
  subst hg2
  obtain ⟨-, hf2, hf3⟩ := readU32_some hfs
  subst hf2
  obtain ⟨-, hh2, hh3⟩ := readU32_some hhs
  subst hh2
  obtain ⟨-, -, ht3⟩ := readU32_some htag
  rw [not_not] at hmagic
  simp only [List.drop_drop, List.length_drop] at hc3 hg3 hf3 hh3 ht3 ⊢
  exact ⟨by omega, hmagic⟩

/-- Full characterization of a successful `Header::from_reader` run: the
resulting header satisfies all `RestFacts`, instantiated at the raw preamble
values read little-endian from fixed offsets (checksum 8, file size 32,
header size 36, endian tag 40), byte-swapped when the endian tag is the
reverse sentinel. -/
theorem from_reader_ok_elim {s : List Nat} {h : Header}
    (hok : Header.from_reader s = .ok h) :
    44 ≤ s.length ∧
    Header.is_magic_valid ((s.take 8).map (fun b => b % 256)) = true ∧
    (rawU32 .le s 40 = ENDIAN_CONSTANT ∨ rawU32 .le s 40 = REVERSE_ENDIAN_CONSTANT) ∧
    RestFacts (if rawU32 .le s 40 = ENDIAN_CONSTANT then ByteOrder.le else ByteOrder.be)
      ((s.take 8).map (fun b => b % 256))
      (if rawU32 .le s 40 = REVERSE_ENDIAN_CONSTANT then swap32 (rawU32 .le s 8)
        else rawU32 .le s 8)
      (((s.drop 12).take 20).map (fun b => b % 256))
      (if rawU32 .le s 40 = REVERSE_ENDIAN_CONSTANT then swap32 (rawU32 .le s 32)
        else rawU32 .le s 32)
      (if rawU32 .le s 40 = REVERSE_ENDIAN_CONSTANT then swap32 (rawU32 .le s 36)
        else rawU32 .le s 36)
      (rawU32 .le s 40) (s.drop 44) h := by
  obtain ⟨hlen, hmagic⟩ := from_reader_ok_len_magic hok
  rw [from_reader_eval_preamble hlen hmagic] at hok
  split at hok
  · next hre =>
    refine ⟨hlen, hmagic, Or.inr hre, ?_⟩
    simp only [hre, reduceIte] at hok ⊢
    exact from_reader_rest_ok (by decide) hok
  · next hre =>
    split at hok
    · exact Except.noConfusion hok
    next hE =>
    rw [not_not] at hE
    refine ⟨hlen, hmagic, Or.inl hE, ?_⟩
    simp only [if_neg hre, if_pos hE]
    exact from_reader_rest_ok (by rw [if_pos hE]) hok

/-! ## Concrete test buffers -/

/-- The 0x70-byte buffer of claim C1: the minimal consistent header except
that the `file_size` field declares 0x71 — one more than the 0x70 bytes the
buffer physically has — so `data_offset` and `map_offset` are 0x71 to keep
every in-header cross-check consistent with the declared size. -/
def c1buf : List Nat :=
  [0x64, 0x65, 0x78, 0x0a, 0x30, 0x33, 0x35, 0x00] ++
  [0, 0, 0, 0] ++ List.replicate 20 0 ++
  [0x71, 0, 0, 0] ++ [0x70, 0, 0, 0] ++ [0x78, 0x56, 0x34, 0x12] ++
  [0, 0, 0, 0] ++ [0, 0, 0, 0] ++ [0x71, 0, 0, 0] ++
  List.replicate 48 0 ++ [0, 0, 0, 0] ++ [0x71, 0, 0, 0]

/-- The minimal synthetic 0x70-byte buffer of claim C3: valid magic with
version 35, little-endian tag, `header_size = 0x70`, all six table sizes and
offsets 0, no link section, `data_size = 0`, and `data_offset`, `map_offset`
and `file_size` all 0x70. -/
def c3buf : List Nat :=
  [0x64, 0x65, 0x78, 0x0a, 0x30, 0x33, 0x35, 0x00] ++
  [0, 0, 0, 0] ++ List.replicate 20 0 ++
  [0x70, 0, 0, 0] ++ [0x70, 0, 0, 0] ++ [0x78, 0x56, 0x34, 0x12] ++
  [0, 0, 0, 0] ++ [0, 0, 0, 0] ++ [0x70, 0, 0, 0] ++
  List.replicate 48 0 ++ [0, 0, 0, 0] ++ [0x70, 0, 0, 0]

/-! ## Claims -/

/-- C1: on the 0x70-byte buffer whose header fields are consistent except that
`file_size` declares 0x71 (one more than the physical 0x70), the file-level
`Header::from_file` fails with `InvalidFileSize(0x70, Some(0x71))` for either
value of the `verify` flag, while the header-only `Header::from_reader` on the
same in-memory bytes succeeds. -/
theorem claim_C1 :
    Header.from_file c1buf false = .err (.invalidFileSize 0x70 (some 0x71)) ∧
    Header.from_file c1buf true = .err (.invalidFileSize 0x70 (some 0x71)) ∧
    (Header.from_reader c1buf).isOk = true :=
  ⟨rfl, rfl, rfl⟩

/-- C3: the minimal synthetic 0x70-byte buffer decodes successfully through
`Header::from_reader` to a `Header` in which all six table offsets and the
link size/offset are `none`. -/
theorem claim_C3 :
    Header.from_reader c3buf =
      .ok { magic := [0x64, 0x65, 0x78, 0x0a, 0x30, 0x33, 0x35, 0x00]
            checksum := 0
            signature := List.replicate 20 0
            file_size := 0x70
            header_size := 0x70
            endian_tag := 0x12345678
            link_size := none
            link_offset := none
            map_offset := 0x70
            string_ids_size := 0
            string_ids_offset := none
            type_ids_size := 0
            type_ids_offset := none
            prototype_ids_size := 0
            prototype_ids_offset := none
            field_ids_size := 0
            field_ids_offset := none
            method_ids_size := 0
            method_ids_offset := none
            class_defs_size := 0
            class_defs_offset := none
            data_size := 0
            data_offset := 0x70 } := rfl

/-- C10: `Dex::new` never returns `Ok`, for every input file content and both
values of the `verify` flag: every successful path through header decoding and
the six identifier-table decodes ends at `unimplemented!()`, so the only
returned values are errors (or the panic itself). -/
theorem claim_C10 : ∀ (file : List Nat) (verify : Bool), (Dex.new file verify).isOk = false := by
  intro file verify
  unfold Dex.new
  cases verify <;> simp only [Bool.false_eq_true, if_false, if_true, reduceIte]
  · rcases hr : Header.from_reader file with e | h <;> simp only []
    · rfl
    · repeat' split
      all_goals rfl
  · repeat' split
    all_goals rfl

/-- The byte order every post-preamble read uses: little-endian when the
endian tag (read little-endian at offset 40) is `ENDIAN_CONSTANT`, big-endian
otherwise (mirrors the per-read selector `if endian_tag == ENDIAN_CONSTANT`
of `src/src/lib.rs`). -/
def resolved_bo (s : List Nat) : ByteOrder :=
  if rawU32 .le s 40 = ENDIAN_CONSTANT then ByteOrder.le else ByteOrder.be

/-- Minimal valid big-endian buffer: endian tag bytes `12 34 56 78` decode
little-endian to `REVERSE_ENDIAN_CONSTANT`, and all multi-byte fields are
stored big-endian. -/
def bebuf : List Nat :=
  [0x64, 0x65, 0x78, 0x0a, 0x30, 0x33, 0x35, 0x00] ++
  [0, 0, 0, 0] ++ List.replicate 20 0 ++
  [0, 0, 0, 0x70] ++ [0, 0, 0, 0x70] ++ [0x12, 0x34, 0x56, 0x78] ++
  [0, 0, 0, 0] ++ [0, 0, 0, 0] ++ [0, 0, 0, 0x70] ++
  List.replicate 48 0 ++ [0, 0, 0, 0] ++ [0, 0, 0, 0x70]

/-- The header `bebuf` decodes to. -/
def behdr : Header :=
  { magic := [0x64, 0x65, 0x78, 0x0a, 0x30, 0x33, 0x35, 0x00]
    checksum := 0
    signature := List.replicate 20 0
    file_size := 0x70
    header_size := 0x70
    endian_tag := 0x78563412
    link_size := none
    link_offset := none
    map_offset := 0x70
    string_ids_size := 0
    string_ids_offset := none
    type_ids_size := 0
    type_ids_offset := none
    prototype_ids_size := 0
    prototype_ids_offset := none
    field_ids_size := 0
    field_ids_offset := none
    method_ids_size := 0
    method_ids_offset := none
    class_defs_size := 0
    class_defs_offset := none
    data_size := 0
    data_offset := 0x70 }

/-- C4: whenever the endian-tag field decodes (little-endian) to
`REVERSE_ENDIAN_CONSTANT` and `Header::from_reader` returns a header, the
returned checksum, file size and header size are the byte-swap of the raw
little-endian 32-bit values at offsets 8, 32 and 36; and an endian tag that
is neither sentinel yields `InvalidEndianTag`. -/
theorem claim_C4 :
    (∀ (s : List Nat) (h : Header), Header.from_reader s = .ok h →
      rawU32 .le s 40 = REVERSE_ENDIAN_CONSTANT →
      h.checksum = swap32 (rawU32 .le s 8) ∧ h.file_size = swap32 (rawU32 .le s 32) ∧
        h.header_size = swap32 (rawU32 .le s 36)) ∧
    (∀ s : List Nat, 44 ≤ s.length →
      Header.is_magic_valid ((s.take 8).map (fun b => b % 256)) = true →
      rawU32 .le s 40 ≠ ENDIAN_CONSTANT → rawU32 .le s 40 ≠ REVERSE_ENDIAN_CONSTANT →
      Header.from_reader s = .error (.invalidEndianTag (rawU32 .le s 40))) := by
  constructor
  · intro s h hok hre
    obtain ⟨-, -, -, facts⟩ := from_reader_ok_elim hok
    refine ⟨?_, ?_, ?_⟩
    · have hx := facts.checksum_eq
      rwa [if_pos hre] at hx
    · have hx := facts.file_size_eq
      rwa [if_pos hre] at hx
    · have hx := facts.header_size_eq
      rwa [if_pos hre] at hx
  · intro s hlen hmagic hne hnre
    rw [from_reader_eval_preamble hlen hmagic, if_neg hnre, if_pos hne]

/-- Witness for C4 at the concrete big-endian buffer `bebuf`. -/
theorem claim_C4_witness :
    Header.from_reader bebuf = .ok behdr ∧
    behdr.checksum = swap32 (rawU32 .le bebuf 8) ∧
    behdr.file_size = swap32 (rawU32 .le bebuf 32) ∧
    behdr.header_size = swap32 (rawU32 .le bebuf 36) :=
  ⟨rfl, claim_C4.1 bebuf behdr rfl rfl⟩

/-- Buffer identical to the minimal one except `header_size` declares 0x60. -/
def c8buf : List Nat :=
  [0x64, 0x65, 0x78, 0x0a, 0x30, 0x33, 0x35, 0x00] ++
  [0, 0, 0, 0] ++ List.replicate 20 0 ++
  [0x70, 0, 0, 0] ++ [0x60, 0, 0, 0] ++ [0x78, 0x56, 0x34, 0x12] ++
  [0, 0, 0, 0] ++ [0, 0, 0, 0] ++ [0x70, 0, 0, 0] ++
  List.replicate 48 0 ++ [0, 0, 0, 0] ++ [0x70, 0, 0, 0]

/-- C8: once the magic and endian tag are valid, a decoded header size
different from 0x70 makes `Header::from_reader` fail with
`InvalidHeaderSize` carrying that decoded value, whatever all later bytes
hold. The decoded header size is the raw little-endian 32-bit value at
offset 36, byte-swapped when the endian tag is the reverse sentinel. -/
theorem claim_C8 : ∀ s : List Nat, 44 ≤ s.length →
    Header.is_magic_valid ((s.take 8).map (fun b => b % 256)) = true →
    (rawU32 .le s 40 = ENDIAN_CONSTANT ∨ rawU32 .le s 40 = REVERSE_ENDIAN_CONSTANT) →
    (if rawU32 .le s 40 = REVERSE_ENDIAN_CONSTANT then swap32 (rawU32 .le s 36)
      else rawU32 .le s 36) ≠ HEADER_SIZE →
    Header.from_reader s = .error (.invalidHeaderSize
      (if rawU32 .le s 40 = REVERSE_ENDIAN_CONSTANT then swap32 (rawU32 .le s 36)
        else rawU32 .le s 36)) := by
  intro s hlen hmagic htag hne
  rw [from_reader_eval_preamble hlen hmagic]
  rcases htag with hE | hRE
  · have hnre : rawU32 .le s 40 ≠ REVERSE_ENDIAN_CONSTANT := by
      rw [hE]
      decide
    rw [if_neg hnre] at hne ⊢
    rw [if_neg (show ¬rawU32 .le s 40 ≠ ENDIAN_CONSTANT from fun hh => hh hE)]
    unfold Header.from_reader_rest
    rw [if_pos hne, if_neg hnre]
  · rw [if_pos hRE] at hne ⊢
    rw [if_pos hRE]
    unfold Header.from_reader_rest
    rw [if_pos hne]

/-- Witness for C8 at the concrete buffer `c8buf` (decoded header size 0x60). -/
theorem claim_C8_witness :
    Header.from_reader c8buf =
      .error (.invalidHeaderSize (if rawU32 .le c8buf 40 = REVERSE_ENDIAN_CONSTANT
        then swap32 (rawU32 .le c8buf 36) else rawU32 .le c8buf 36)) :=
  claim_C8 c8buf (by decide) (by decide) (Or.inl (by decide)) (by decide)

/-- C6: the magic check accepts exactly the magics of the form
`dex\n` + three ASCII digits + NUL; any other magic makes
`Header::from_reader` fail with `InvalidMagic` carrying the observed bytes;
the version-35 magic is accepted and replacing any of bytes 4..7 with the
non-digit 0x41 is rejected. -/
theorem claim_C6 :
    (∀ m : List Nat, Header.is_magic_valid m = true ↔
      (m.take 4 = [0x64, 0x65, 0x78, 0x0a] ∧
        0x30 ≤ m.getD 4 0 ∧ m.getD 4 0 ≤ 0x39 ∧ 0x30 ≤ m.getD 5 0 ∧ m.getD 5 0 ≤ 0x39 ∧
        0x30 ≤ m.getD 6 0 ∧ m.getD 6 0 ≤ 0x39 ∧ m.getD 7 0 = 0)) ∧
    (∀ s : List Nat, 8 ≤ s.length →
      Header.is_magic_valid ((s.take 8).map (fun b => b % 256)) = false →
      Header.from_reader s = .error (.invalidMagic ((s.take 8).map (fun b => b % 256)))) ∧
    Header.is_magic_valid [0x64, 0x65, 0x78, 0x0a, 0x30, 0x33, 0x35, 0x00] = true ∧
    (∀ i : Nat, 4 ≤ i → i ≤ 7 →
      Header.is_magic_valid ([0x64, 0x65, 0x78, 0x0a, 0x30, 0x33, 0x35, 0x00].set i 0x41) =
        false) := by
  refine ⟨?_, ?_, by decide, ?_⟩
  · intro m
    simp only [Header.is_magic_valid, Bool.and_eq_true, decide_eq_true_eq, and_assoc]
    tauto
  · intro s h8 hm
    unfold Header.from_reader
    rw [readExact_of_len h8]
    simp only [hm, Bool.false_eq_true, not_false_eq_true, if_true]
  · intro i h4 h7
    interval_cases i <;> decide

/-- Witness for C6: an 8-byte input whose fifth magic byte is the non-digit
0x41 is rejected with `InvalidMagic` carrying the observed bytes. -/
theorem claim_C6_witness :
    Header.from_reader [0x64, 0x65, 0x78, 0x0a, 0x41, 0x33, 0x35, 0x00] =
      .error (.invalidMagic [0x64, 0x65, 0x78, 0x0a, 0x41, 0x33, 0x35, 0x00]) :=
  claim_C6.2.1 [0x64, 0x65, 0x78, 0x0a, 0x41, 0x33, 0x35, 0x00] (by decide) (by decide)

/-- C5: for each of the six identifier tables, with `size` and `offset` the
two 32-bit values read for the table and `cur` the running cumulative offset:
size 0 with a non-zero offset fails with `MismatchedOffsets` naming the
table, and a positive size with an offset different from the running offset
fails with `MismatchedOffsets` naming the table and carrying the observed and
expected offsets. On every successfully decoded header the six offsets
follow the running offsets accumulated from 0x70 by the per-record widths
4, 4, 12, 8, 8 and 32 (`Header.strings_end` through `Header.methods_end`). -/
theorem claim_C5 :
    (∀ (name : String) (w : Nat) (bo : ByteOrder) (cur : Nat) (s s1 s2 : List Nat)
      (size offset : Nat), readU32 bo s = some (size, s1) → readU32 bo s1 = some (offset, s2) →
      (size = 0 → offset ≠ 0 →
        read_table name w bo cur s = .error (.mismatchedOffsets name offset 0)) ∧
      (0 < size → offset ≠ cur →
        read_table name w bo cur s = .error (.mismatchedOffsets name offset cur))) ∧
    (∀ (s : List Nat) (h : Header), Header.from_reader s = .ok h →
      (h.string_ids_size = 0 → h.string_ids_offset = none) ∧
      (0 < h.string_ids_size → h.string_ids_offset = some HEADER_SIZE) ∧
      (h.type_ids_size = 0 → h.type_ids_offset = none) ∧
      (0 < h.type_ids_size → h.type_ids_offset = some h.strings_end) ∧
      (h.prototype_ids_size = 0 → h.prototype_ids_offset = none) ∧
      (0 < h.prototype_ids_size → h.prototype_ids_offset = some h.types_end) ∧
      (h.field_ids_size = 0 → h.field_ids_offset = none) ∧
      (0 < h.field_ids_size → h.field_ids_offset = some h.prototypes_end) ∧
      (h.method_ids_size = 0 → h.method_ids_offset = none) ∧
      (0 < h.method_ids_size → h.method_ids_offset = some h.fields_end) ∧
      (h.class_defs_size = 0 → h.class_defs_offset = none) ∧
      (0 < h.class_defs_size → h.class_defs_offset = some h.methods_end)) := by
  constructor
  · intro name w bo cur s s1 s2 size offset h1 h2
    constructor
    · intro hz hnz
      unfold read_table
      simp only [h1, h2]
      rw [if_neg (by simp [hz]), if_pos ⟨hz, hnz⟩]
    · intro hp hne
      unfold read_table
      simp only [h1, h2]
      rw [if_pos ⟨hp, hne⟩]
  · intro s h hok
    obtain ⟨-, -, -, facts⟩ := from_reader_ok_elim hok
    exact ⟨facts.strings_zero, facts.strings_pos, facts.types_zero, facts.types_pos,
      facts.prototypes_zero, facts.prototypes_pos, facts.fields_zero, facts.fields_pos,
      facts.methods_zero, facts.methods_pos, facts.classes_zero, facts.classes_pos⟩

/-- Witness for C5: a string table declaring one record at offset 5 instead
of the running offset 0x70 is rejected naming `string_ids_offset`. -/
theorem claim_C5_witness :
    read_table "string_ids_offset" 4 .le HEADER_SIZE [1, 0, 0, 0, 5, 0, 0, 0] =
      .error (.mismatchedOffsets "string_ids_offset" 5 HEADER_SIZE) :=
  (claim_C5.1 "string_ids_offset" 4 .le HEADER_SIZE [1, 0, 0, 0, 5, 0, 0, 0] [5, 0, 0, 0] []
    1 5 rfl rfl).2 (by decide) (by decide)

/-- `Header::from_reader` after the preamble: a zero `link_size` together
with a non-zero `link_offset` is rejected immediately after the two link
reads. -/
theorem rest_link_reject {m : List Nat} {c : Nat} {sg : List Nat} {fs hs tag : Nat}
    {s : List Nat} {bo : ByteOrder}
    (hbo : bo = if tag = ENDIAN_CONSTANT then ByteOrder.le else ByteOrder.be)
    (hhs : hs = HEADER_SIZE) (hfs : ¬ fs < HEADER_SIZE) (hlen : 8 ≤ s.length)
    (h44 : rawU32 bo s 0 = 0) (h48 : rawU32 bo s 4 ≠ 0) :
    Header.from_reader_rest m c sg fs hs tag s =
      .error (.mismatchedOffsets "link_offset" (rawU32 bo s 4) 0) := by
  have ea : readU32 bo s = some (rawU32 bo s 0, s.drop 4) := readU32_of_len (by omega)
  have eb : readU32 bo (s.drop 4) = some (rawU32 bo s 4, s.drop 8) := by
    rw [readU32_of_len (by simp; omega), rawU32_drop, List.drop_drop]
  simp only [Header.from_reader_rest]
  rw [← hbo]
  rw [if_neg (fun hh => hh hhs), if_neg hfs]
  simp only [ea, eb]
  rw [if_pos ⟨h44, h48⟩]

/-- C9: in every header `Header::from_reader` returns, the link size and
offset are both present or both absent; each is `none` exactly when its raw
32-bit field (read with the resolved byte order at offsets 44 and 48) is 0;
a zero link size with a non-zero link offset is rejected with
`MismatchedOffsets`, and a non-zero link size with a zero link offset is
rejected with `MismatchedOffsets` by the post-data link check. -/
theorem claim_C9 :
    (∀ (s : List Nat) (h : Header), Header.from_reader s = .ok h →
      (h.link_size.isSome ↔ h.link_offset.isSome) ∧
      h.link_size = (if rawU32 (resolved_bo s) s 44 = 0 then none
        else some (rawU32 (resolved_bo s) s 44)) ∧
      h.link_offset = (if rawU32 (resolved_bo s) s 48 = 0 then none
        else some (rawU32 (resolved_bo s) s 48)) ∧
      ¬(rawU32 (resolved_bo s) s 44 = 0 ∧ rawU32 (resolved_bo s) s 48 ≠ 0) ∧
      ¬(rawU32 (resolved_bo s) s 44 ≠ 0 ∧ rawU32 (resolved_bo s) s 48 = 0)) ∧
    (∀ s : List Nat, 52 ≤ s.length →
      Header.is_magic_valid ((s.take 8).map (fun b => b % 256)) = true →
      (rawU32 .le s 40 = ENDIAN_CONSTANT ∨ rawU32 .le s 40 = REVERSE_ENDIAN_CONSTANT) →
      (if rawU32 .le s 40 = REVERSE_ENDIAN_CONSTANT then swap32 (rawU32 .le s 36)
        else rawU32 .le s 36) = HEADER_SIZE →
      ¬((if rawU32 .le s 40 = REVERSE_ENDIAN_CONSTANT then swap32 (rawU32 .le s 32)
        else rawU32 .le s 32) < HEADER_SIZE) →
      rawU32 (resolved_bo s) s 44 = 0 → rawU32 (resolved_bo s) s 48 ≠ 0 →
      Header.from_reader s =
        .error (.mismatchedOffsets "link_offset" (rawU32 (resolved_bo s) s 48) 0)) ∧
    (∀ ls lo mo fs cur ds doff : Nat, ls ≠ 0 → lo = 0 → doff ≤ mo → mo ≤ doff + ds →
      final_checks ls lo mo fs cur ds doff =
        .error (.mismatchedOffsets "link_offset" 0 (cur + ds))) := by
  refine ⟨?_, ?_, ?_⟩
  · intro s h hok
    obtain ⟨-, -, -, facts⟩ := from_reader_ok_elim hok
    have e44 : rawU32 (if rawU32 .le s 40 = ENDIAN_CONSTANT then ByteOrder.le
        else ByteOrder.be) (s.drop 44) 0 = rawU32 (resolved_bo s) s 44 := by
      rw [rawU32_drop]
      rfl
    have e48 : rawU32 (if rawU32 .le s 40 = ENDIAN_CONSTANT then ByteOrder.le
        else ByteOrder.be) (s.drop 44) 4 = rawU32 (resolved_bo s) s 48 := by
      rw [rawU32_drop]
      rfl
    have hls := facts.link_size_eq
    have hlo := facts.link_offset_eq
    rw [e44] at hls
    rw [e48] at hlo
    refine ⟨facts.link_iff, hls, hlo, ?_, ?_⟩
    · rintro ⟨h0, hn0⟩
      have hiff := facts.link_iff
      rw [hls, hlo, if_pos h0, if_neg hn0] at hiff
      simp at hiff
    · rintro ⟨hn0, h0⟩
      have hiff := facts.link_iff
      rw [hls, hlo, if_neg hn0, if_pos h0] at hiff
      simp at hiff
  · intro s hlen hmagic htag hhs hfs h44 h48
    rw [from_reader_eval_preamble (by omega) hmagic]
    have e44 : rawU32 (resolved_bo s) s 44 =
        rawU32 (resolved_bo s) (s.drop 44) 0 := by
      rw [rawU32_drop]
    have e48 : rawU32 (resolved_bo s) s 48 =
        rawU32 (resolved_bo s) (s.drop 44) 4 := by
      rw [rawU32_drop]
    rw [e44] at h44
    rw [e48] at h48 ⊢
    have hdlen : 8 ≤ (s.drop 44).length := by
      simp
      omega
    by_cases hre : rawU32 .le s 40 = REVERSE_ENDIAN_CONSTANT
    · rw [if_pos hre] at hhs hfs ⊢
      exact rest_link_reject rfl hhs hfs hdlen h44 h48
    · rw [if_neg hre] at hhs hfs ⊢
      have hE : rawU32 .le s 40 = ENDIAN_CONSTANT := by tauto
      rw [if_neg (fun hh => hh hE)]
      exact rest_link_reject rfl hhs hfs hdlen h44 h48
  · intro ls lo mo fs cur ds doff hls hlo h1 h2
    unfold final_checks
    rw [if_neg (by omega), if_neg (by tauto), if_pos ⟨hls, hlo⟩]

/-- Witness for C9: a non-zero link size (4) with a zero link offset is
rejected by the post-data link check with `MismatchedOffsets`. -/
theorem claim_C9_witness :
    final_checks 4 0 0x74 0x78 0x70 0 0x74 =
      .error (.mismatchedOffsets "link_offset" 0 (0x70 + 0)) :=
  claim_C9.2.2 4 0 0x74 0x78 0x70 0 0x74 (by decide) rfl (by decide) (by decide)

/-- 0x70-byte buffer with a link section declared (`link_size = 4`,
`link_offset = 0x70`), `data_offset = 0x74` (tolerated mismatch against the
running offset 0x70), `data_size = 0`, `map_offset = 0x74` and
`file_size = 0x74`. Here `link_offset` (0x70) differs from
`data_offset + data_size` (0x74), yet the decode succeeds, because the code
compares `link_offset` against the running offset plus `data_size`. -/
def c2buf : List Nat :=
  [0x64, 0x65, 0x78, 0x0a, 0x30, 0x33, 0x35, 0x00] ++
  [0, 0, 0, 0] ++ List.replicate 20 0 ++
  [0x74, 0, 0, 0] ++ [0x70, 0, 0, 0] ++ [0x78, 0x56, 0x34, 0x12] ++
  [4, 0, 0, 0] ++ [0x70, 0, 0, 0] ++ [0x74, 0, 0, 0] ++
  List.replicate 48 0 ++ [0, 0, 0, 0] ++ [0x74, 0, 0, 0]

/-- The header `c2buf` decodes to. -/
def c2hdr : Header :=
  { magic := [0x64, 0x65, 0x78, 0x0a, 0x30, 0x33, 0x35, 0x00]
    checksum := 0
    signature := List.replicate 20 0
    file_size := 0x74
    header_size := 0x70
    endian_tag := 0x12345678
    link_size := some 4
    link_offset := some 0x70
    map_offset := 0x74
    string_ids_size := 0
    string_ids_offset := none
    type_ids_size := 0
    type_ids_offset := none
    prototype_ids_size := 0
    prototype_ids_offset := none
    field_ids_size := 0
    field_ids_offset := none
    method_ids_size := 0
    method_ids_offset := none
    class_defs_size := 0
    class_defs_offset := none
    data_size := 0
    data_offset := 0x74 }

/-- Counterexample to C2 as stated: on `c2buf` the link size is non-zero and
`link_offset` (0x70) is NOT equal to `data_offset + data_size` (0x74), yet
`Header::from_reader` succeeds instead of failing with `MismatchedOffsets`:
the code compares `link_offset` with the running offset accumulated over the
six tables plus `data_size`, not with `data_offset + data_size`. -/
theorem claim_C2_counterexample :
    Header.from_reader c2buf = .ok c2hdr ∧ c2hdr.link_size = some 4 ∧
    c2hdr.link_offset = some 0x70 ∧ c2hdr.data_offset + c2hdr.data_size = 0x74 :=
  ⟨rfl, rfl, rfl, rfl⟩

/-- C2 (amended): with a non-zero link size the decoder requires
`link_offset` to equal the running cumulative offset over the six tables
(`Header.tables_end`) plus `data_size` — which equals
`data_offset + data_size` only when `data_offset` matches the running
offset — failing with `MismatchedOffsets` otherwise (its payload reporting
`data_offset + data_size` as the expected value), and requires
`link_offset + link_size` to equal `file_size` exactly, failing with a
`Header` error otherwise. -/
theorem claim_C2_amended :
    (∀ (s : List Nat) (h : Header) (n : Nat), Header.from_reader s = .ok h →
      h.link_size = some n →
      h.link_offset = some (h.tables_end + h.data_size) ∧
        h.tables_end + h.data_size + n = h.file_size) ∧
    (∀ ls lo mo fs cur ds doff : Nat, ls ≠ 0 → lo ≠ 0 → doff ≤ mo → mo ≤ doff + ds →
      lo ≠ cur + ds →
      final_checks ls lo mo fs cur ds doff =
        .error (.mismatchedOffsets "link_offset" lo (doff + ds))) ∧
    (∀ ls lo mo fs cur ds doff : Nat, ls ≠ 0 → lo ≠ 0 → doff ≤ mo → mo ≤ doff + ds →
      lo = cur + ds → lo + ls ≠ fs →
      final_checks ls lo mo fs cur ds doff =
        .error (.header "link_data section must end at the end of file")) := by
  refine ⟨?_, ?_, ?_⟩
  · intro s h n hok hsome
    obtain ⟨-, -, -, facts⟩ := from_reader_ok_elim hok
    obtain ⟨g1, g2⟩ := facts.link_facts n hsome
    rw [facts.file_size_eq]
    exact ⟨g1, g2⟩
  · intro ls lo mo fs cur ds doff hls hlo h1 h2 hne
    unfold final_checks
    rw [if_neg (by omega), if_neg (by tauto), if_neg (by tauto), if_pos ⟨hls, hlo⟩,
      if_pos hne]
  · intro ls lo mo fs cur ds doff hls hlo h1 h2 heq hfs
    unfold final_checks
    rw [if_neg (by omega), if_neg (by tauto), if_neg (by tauto), if_pos ⟨hls, hlo⟩,
      if_neg (by omega), if_pos hfs]

/-- Witness for the amended C2 at `c2buf`: the accepted link offset equals
the running tables end plus the data size, and together with the link size
reaches the declared file size. -/
theorem claim_C2_witness :
    c2hdr.link_offset = some (c2hdr.tables_end + c2hdr.data_size) ∧
    c2hdr.tables_end + c2hdr.data_size + 4 = c2hdr.file_size :=
  claim_C2_amended.1 c2buf c2hdr 4 rfl rfl

/-- The minimal buffer with magic version digits `999`. -/
def c7buf : List Nat :=
  [0x64, 0x65, 0x78, 0x0a, 0x39, 0x39, 0x39, 0x00] ++
  [0, 0, 0, 0] ++ List.replicate 20 0 ++
  [0x70, 0, 0, 0] ++ [0x70, 0, 0, 0] ++ [0x78, 0x56, 0x34, 0x12] ++
  [0, 0, 0, 0] ++ [0, 0, 0, 0] ++ [0x70, 0, 0, 0] ++
  List.replicate 48 0 ++ [0, 0, 0, 0] ++ [0x70, 0, 0, 0]

/-- The header `c7buf` decodes to (magic version digits `999`). -/
def c7hdr : Header :=
  { magic := [0x64, 0x65, 0x78, 0x0a, 0x39, 0x39, 0x39, 0x00]
    checksum := 0
    signature := List.replicate 20 0
    file_size := 0x70
    header_size := 0x70
    endian_tag := 0x12345678
    link_size := none
    link_offset := none
    map_offset := 0x70
    string_ids_size := 0
    string_ids_offset := none
    type_ids_size := 0
    type_ids_offset := none
    prototype_ids_size := 0
    prototype_ids_offset := none
    field_ids_size := 0
    field_ids_offset := none
    method_ids_size := 0
    method_ids_offset := none
    class_defs_size := 0
    class_defs_offset := none
    data_size := 0
    data_offset := 0x70 }

/-- Counterexample to C7 as stated: for the validly-decoded header with magic
digits `999` the claimed decimal value is 999, but `get_dex_version` computes
in `u8` and returns 999 mod 256 = 231. -/
theorem claim_C7_counterexample :
    Header.from_reader c7buf = .ok c7hdr ∧
    Header.is_magic_valid c7hdr.magic = true ∧
    (c7hdr.magic.getD 4 0 - 0x30) * 100 + (c7hdr.magic.getD 5 0 - 0x30) * 10 +
      (c7hdr.magic.getD 6 0 - 0x30) = 999 ∧
    Header.get_dex_version c7hdr = 231 ∧
    Header.get_dex_version c7hdr ≠
      (c7hdr.magic.getD 4 0 - 0x30) * 100 + (c7hdr.magic.getD 5 0 - 0x30) * 10 +
        (c7hdr.magic.getD 6 0 - 0x30) :=
  ⟨rfl, rfl, rfl, rfl, by decide⟩

/-- C7 (amended): for every header whose magic passed validation,
`get_dex_version` returns the decimal value
`(d4-'0')*100 + (d5-'0')*10 + (d6-'0')` reduced modulo 256 (the function
computes in `u8`, so values above 255 wrap); it equals the decimal value
itself exactly when that value is at most 255. -/
theorem claim_C7_amended : ∀ h : Header, Header.is_magic_valid h.magic = true →
    Header.get_dex_version h =
      ((h.magic.getD 4 0 - 0x30) * 100 + (h.magic.getD 5 0 - 0x30) * 10 +
        (h.magic.getD 6 0 - 0x30)) % 256 := by
  intro h hm
  simp only [Header.is_magic_valid, Bool.and_eq_true, decide_eq_true_eq] at hm
  obtain ⟨⟨⟨⟨⟨⟨⟨-, -⟩, h4⟩, h5⟩, h6⟩, h4u⟩, h5u⟩, h6u⟩ := hm
  unfold Header.get_dex_version sub8
  omega

/-- Witness for the amended C7 at the concrete header `c7hdr`. -/
theorem claim_C7_witness :
    Header.get_dex_version c7hdr =
      ((c7hdr.magic.getD 4 0 - 0x30) * 100 + (c7hdr.magic.getD 5 0 - 0x30) * 10 +
        (c7hdr.magic.getD 6 0 - 0x30)) % 256 :=
  claim_C7_amended c7hdr (by decide)

end Dalvik
